import Mathlib

/-!
Verification of the Simba MQTT 3.1.1 client engine (`src/inet/mqtt_client.c`).

The C code is shallowly embedded: every byte is a `Nat` (reads through the
`uint8_t` buffers reduce modulo 256, mirroring the C truncation), the
transport output is a list of written bytes together with an optional
remaining capacity (`Option.none` models a transport that accepts every
write; `Option.some k` models a transport that accepts `k` more bytes, so
a short write — the C `chan_write(...) != n` check — is capacity
exhaustion), and the transport input is the list of bytes still unread.
Fallible C functions return their `int` result next to the updated client.
The `queue_read` calls that dequeue the verb byte and the parameter
pointer from the in-process control channel are modelled by passing the
dequeued request (`CtrlMsg`) directly; the outbound control channel is
modelled as the list of result codes posted during one dispatch.
-/

deriving instance DecidableEq for Except

namespace MqttClient

/-- Errno values used by the client (Simba uses the standard numbers). -/
def EINVAL : Int := 22

def EIO : Int := 5

def EMSGSIZE : Int := 90

def EPROTO : Int := 71

/-! Control packet types from the C header block. -/

def MQTT_CONNECT : Nat := 1
def MQTT_CONNACK : Nat := 2
def MQTT_PUBLISH : Nat := 3
def MQTT_PUBACK : Nat := 4
def MQTT_PUBREC : Nat := 5
def MQTT_PUBREL : Nat := 6
def MQTT_PUBCOMP : Nat := 7
def MQTT_SUBSCRIBE : Nat := 8
def MQTT_SUBACK : Nat := 9
def MQTT_UNSUBSCRIBE : Nat := 10
def MQTT_UNSUBACK : Nat := 11
def MQTT_PINGREQ : Nat := 12
def MQTT_PINGRESP : Nat := 13
def MQTT_DISCONNECT : Nat := 14

/-! Connection flags. -/

def CLEAN_SESSION : Nat := 0x2
def WILL_FLAG : Nat := 0x4
def WILL_QOS_1 : Nat := 0x8
def WILL_QOS_2 : Nat := 0x10
def WILL_RETAIN : Nat := 0x20
def PASSWORD_FLAG : Nat := 0x40
def USER_NAME_FLAG : Nat := 0x80

def CONNECTION_ACCEPTED : Nat := 0

/-- Interval required between MQTT packets. -/
def KEEP_ALIVE : Nat := 300

/-- Extract Most Significant Byte from a 16bit value. -/
def MSB (b : Nat) : Nat := (b >>> 8) &&& 0xff

/-- Extract Least Significant Byte from a 16bit value. -/
def LSB (b : Nat) : Nat := b &&& 0xff

/-- Connection state (`mqtt_client_state_t`). -/
inductive ClientState where
  | disconnected
  | connected
deriving DecidableEq

/-- In-flight message type (the `CONTROL_*` constants stored in
`self_p->message.type`); `none_` is `CONTROL_NONE`. -/
inductive ControlType where
  | connect
  | disconnect
  | ping
  | publish
  | subscribe
  | unsubscribe
  | none_
deriving DecidableEq

/-- `struct mqtt_string_t`: a buffer pointer (`Option.none` models `NULL`;
`Option.some bs` models a pointer to the bytes `bs`) and a declared size. -/
structure MqttString where
  buf_p : Option (List Nat)
  size : Nat
deriving DecidableEq

/-- The `will` part of `struct mqtt_conn_options_t`. -/
structure ConnWill where
  topic : MqttString
  payload : MqttString
  qos : Nat
deriving DecidableEq

/-- `struct mqtt_conn_options_t` (the fields the client reads). -/
structure ConnOptions where
  client_id : MqttString
  will : ConnWill
  user_name : MqttString
  password : MqttString
deriving DecidableEq

/-- `struct mqtt_application_message_t` (the fields the client reads). -/
structure AppMessage where
  topic : MqttString
  payload : MqttString
  qos : Nat
deriving DecidableEq

/-- Transport output endpoint: the bytes written so far, and the number of
further bytes the transport will accept (`Option.none`: unbounded). -/
structure OutChan where
  written : List Nat
  cap : Option Nat
deriving DecidableEq

/-- `struct mqtt_client_t` (the fields the protocol engine mutates). -/
structure Client where
  state : ClientState
  messageType : ControlType
  out : OutChan
  input : List Nat
deriving DecidableEq

/-- `chan_write(out_p, buf, n)`: appends what fits and returns the count
actually written (a short count models transport failure). -/
def chan_write (ch : OutChan) (bs : List Nat) : OutChan × Nat :=
  match ch.cap with
  | Option.none => ({ written := ch.written ++ bs, cap := Option.none }, bs.length)
  | Option.some k =>
      let n := min bs.length k
      ({ written := ch.written ++ bs.take n, cap := Option.some (k - n) }, n)

/-- Number of bytes `chan_read(in_p, buf, n)` returns: all `n` when the
input holds that many, otherwise only what is available (short read). -/
def chan_read_count (input : List Nat) (n : Nat) : Nat :=
  min n input.length

/-- The bytes `chan_read` stores into a `uint8_t` buffer (truncated mod 256). -/
def chan_read_bytes (input : List Nat) (n : Nat) : List Nat :=
  (input.take n).map fun b => b % 256

/-- The input bytes still unread after `chan_read(in_p, buf, n)`. -/
def chan_read_rest (input : List Nat) (n : Nat) : List Nat :=
  input.drop n

/-- One round of the do-while loop of `write_fixed_header`: emit
`size % 128`, with the continuation bit (adding `0x80` to a value below
128 sets its top bit) while `size / 128` is still positive. The loop is
driven by structural fuel so that it computes definitionally; the size
shrinks by a factor of 128 each round, so `fuel = size` (see
`encode_remaining_length`) can never run out before the loop exits. -/
def encode_remaining_length_go (fuel : Nat) (size : Nat) : List Nat :=
  match fuel with
  | 0 => [size % 128]
  | fuel + 1 =>
      if 0 < size / 128 then
        (size % 128 + 0x80) :: encode_remaining_length_go fuel (size / 128)
      else [size % 128]

/-- The base-128 variable-length encoding emitted by the do-while loop of
`write_fixed_header`. Always emits at least one byte. -/
def encode_remaining_length (size : Nat) : List Nat :=
  encode_remaining_length_go size size

/-- The bytes `write_fixed_header` assembles in `buf`: the
`(type << 4) | flags` byte (truncated to `uint8_t`) followed by the
encoded remaining length. -/
def fixed_header_bytes (type flags : Nat) (size : Nat) : List Nat :=
  (((type <<< 4) ||| flags) % 256) :: encode_remaining_length size

/-- `write_fixed_header`: writes the fixed header, `- EIO` on a short write. -/
def write_fixed_header (c : Client) (type flags : Nat) (size : Nat) : Client × Int :=
  let bytes := fixed_header_bytes type flags size
  let w := chan_write c.out bytes
  if w.2 ≠ bytes.length then ({ c with out := w.1 }, - EIO)
  else ({ c with out := w.1 }, 0)

/-- The remaining-length decoding loop of `read_fixed_header`: consumes
bytes from the input, accumulating `(byte & 0x7f) * multiplier`; after each
byte the multiplier is multiplied by 128 and the loop fails with `-1` as
soon as the multiplier exceeds `128^3`, before the continuation bit of the
byte just read is tested. An exhausted input is a short `chan_read`
(`- EIO`). Returns the remaining input next to the result. -/
def read_remaining_length : List Nat → Nat → Nat → List Nat × Except Int Nat
  | [], _, _ => ([], Except.error (- EIO))
  | b :: rest, multiplier, acc =>
      let byte := b % 256
      let acc2 := acc + (byte &&& 0x7f) * multiplier
      let m2 := multiplier * 128
      if m2 > 128 * 128 * 128 then (rest, Except.error (-1))
      else if byte &&& 0x80 ≠ 0 then read_remaining_length rest m2 acc2
      else (rest, Except.ok acc2)

/-- `read_fixed_header`: reads one byte, splits it into type and flags
nibbles, then decodes the remaining length. -/
def read_fixed_header (c : Client) : Client × Except Int (Nat × Nat × Nat) :=
  match c.input with
  | [] => (c, Except.error (- EIO))
  | b :: rest =>
      let byte := b % 256
      let type := (byte >>> 4) &&& 0xf
      let flags := byte &&& 0xf
      match read_remaining_length rest 1 0 with
      | (rest2, Except.error e) => ({ c with input := rest2 }, Except.error e)
      | (rest2, Except.ok size) => ({ c with input := rest2 }, Except.ok (type, flags, size))

/-- `write_mqtt_string`: rejects an empty, null or oversize string with
`-EINVAL`, then writes the two-byte big-endian length header and the
string bytes, `- EIO` on any short write. -/
def write_mqtt_string (c : Client) (s : MqttString) : Client × Int :=
  if s.size = 0 ∨ s.buf_p = Option.none then (c, -EINVAL)
  else if s.size > 0xffff then (c, -EINVAL)
  else
    let w1 := chan_write c.out [MSB s.size, LSB s.size]
    let c1 : Client := { c with out := w1.1 }
    if w1.2 ≠ 2 then (c1, - EIO)
    else
      let bytes := (s.buf_p.getD []).take s.size
      let w2 := chan_write c1.out bytes
      let c2 : Client := { c1 with out := w2.1 }
      if w2.2 ≠ s.size then (c2, - EIO)
      else (c2, 0)

/-- The bytes a successful `write_mqtt_string` puts on the wire. -/
def mqtt_string_bytes (s : MqttString) : List Nat :=
  [MSB s.size, LSB s.size] ++ (s.buf_p.getD []).take s.size

/-- The default client id `"simba_mqtt"` substituted per MQTT-3.1.3-3. -/
def simba_mqtt_id : List Nat := [115, 105, 109, 98, 97, 95, 109, 113, 116, 116]

/-- The all-zero `default_options` installed when the caller passes `NULL`. -/
def default_conn_options : ConnOptions :=
  { client_id := { buf_p := Option.none, size := 0 }
    will := { topic := { buf_p := Option.none, size := 0 }
              payload := { buf_p := Option.none, size := 0 }
              qos := 0 }
    user_name := { buf_p := Option.none, size := 0 }
    password := { buf_p := Option.none, size := 0 } }

/-- The client id actually sent: an empty client id is replaced with the
default `"simba_mqtt"` (whose `strlen` is 10). -/
def effective_client_id (opts : ConnOptions) : MqttString :=
  if opts.client_id.size = 0 then { buf_p := Option.some simba_mqtt_id, size := 10 }
  else opts.client_id

/-- The `payload_length` computed by `handle_control_connect`: each payload
string contributes its size plus its 2-byte length header. -/
def connect_payload_length (opts : ConnOptions) : Nat :=
  (effective_client_id opts).size + 2
  + (if opts.will.topic.size > 0 then
       opts.will.topic.size + 2 + opts.will.payload.size + 2
     else 0)
  + (if opts.user_name.size > 0 then opts.user_name.size + 2 else 0)
  + (if opts.password.size > 0 then opts.password.size + 2 else 0)

/-- The connect-flags byte: clean session is forced; will flags only when a
will topic is present; username / password flags gate their fields. -/
def connect_flags (opts : ConnOptions) : Nat :=
  CLEAN_SESSION
  ||| (if opts.will.topic.size > 0 then
         WILL_FLAG
         ||| (if opts.will.qos = 1 then WILL_QOS_1
              else if opts.will.qos = 2 then WILL_QOS_2 else 0)
       else 0)
  ||| (if opts.user_name.size > 0 then USER_NAME_FLAG else 0)
  ||| (if opts.password.size > 0 then PASSWORD_FLAG else 0)

/-- The payload section of the connect packet, in the order the handler
writes it: client id, will topic, will payload, username, password. -/
def connect_payload_bytes (opts : ConnOptions) : List Nat :=
  mqtt_string_bytes (effective_client_id opts)
  ++ (if opts.will.topic.size > 0 then
        mqtt_string_bytes opts.will.topic ++ mqtt_string_bytes opts.will.payload
      else [])
  ++ (if opts.user_name.size > 0 then mqtt_string_bytes opts.user_name else [])
  ++ (if opts.password.size > 0 then mqtt_string_bytes opts.password else [])

/-- The password write at the end of `handle_control_connect`, followed by
the final in-flight update `message.type = CONTROL_CONNECT`. -/
def connect_fin (c : Client) (opts : ConnOptions) : Client × Int :=
  if opts.password.size > 0 then
    let r6 := write_mqtt_string c opts.password
    if r6.2 ≠ 0 then r6
    else ({ r6.1 with messageType := ControlType.connect }, 0)
  else ({ c with messageType := ControlType.connect }, 0)

/-- The username write of `handle_control_connect`, shared by the will and
no-will paths. -/
def connect_tail (c : Client) (opts : ConnOptions) : Client × Int :=
  if opts.user_name.size > 0 then
    let r5 := write_mqtt_string c opts.user_name
    if r5.2 ≠ 0 then r5
    else connect_fin r5.1 opts
  else connect_fin c opts

/-- `handle_control_connect`: substitutes default options on `NULL`,
rejects an asymmetric will with `-EINVAL`, defaults the client id, then
writes the fixed header with remaining length `12 + payload_length`, the
twelve-byte variable header (protocol name, level 4, flags, keep-alive,
and the two payload-length bytes the C code appends), and the payload
strings; finally records the connect as in flight. -/
def handle_control_connect (c : Client) (opts? : Option ConnOptions) : Client × Int :=
  let opts := opts?.getD default_conn_options
  if (opts.will.topic.size == 0) != (opts.will.payload.size == 0) then (c, -EINVAL)
  else
    let client_id := effective_client_id opts
    let payload_length := connect_payload_length opts
    let flags := connect_flags opts
    let r1 := write_fixed_header c MQTT_CONNECT 0 (12 + payload_length)
    if r1.2 ≠ 0 then r1
    else
      let hdr : List Nat :=
        [0, 4, 77, 81, 84, 84, 4, flags % 256,
         MSB KEEP_ALIVE, LSB KEEP_ALIVE, MSB payload_length, LSB payload_length]
      let w := chan_write r1.1.out hdr
      let c2 : Client := { r1.1 with out := w.1 }
      if w.2 ≠ 12 then (c2, - EIO)
      else
        let r2 := write_mqtt_string c2 client_id
        if r2.2 ≠ 0 then r2
        else if opts.will.topic.size > 0 then
          let r3 := write_mqtt_string r2.1 opts.will.topic
          if r3.2 ≠ 0 then r3
          else
            let r4 := write_mqtt_string r3.1 opts.will.payload
            if r4.2 ≠ 0 then r4
            else connect_tail r4.1 opts
        else connect_tail r2.1 opts

/-- `handle_response_connack`: requires a connect in flight (checked before
any byte is read), clears the in-flight slot, requires size 2, reads the
two bytes, requires connack flags 0 and return code 0, then marks the
client connected. -/
def handle_response_connack (c : Client) (size : Nat) : Client × Int :=
  if c.messageType ≠ ControlType.connect then (c, -1)
  else
    let c1 : Client := { c with messageType := ControlType.none_ }
    if size ≠ 2 then (c1, -EMSGSIZE)
    else
      let buf := chan_read_bytes c1.input size
      let c2 : Client := { c1 with input := chan_read_rest c1.input size }
      if chan_read_count c1.input size ≠ size then (c2, - EIO)
      else if buf.getD 0 0 ≠ 0 then (c2, -1)
      else if buf.getD 1 0 ≠ CONNECTION_ACCEPTED then (c2, -1)
      else ({ c2 with state := ClientState.connected }, 0)

/-- `handle_control_disconnect`: writes a zero-length disconnect packet and
(only on success) transitions the state to disconnected. -/
def handle_control_disconnect (c : Client) : Client × Int :=
  let r := write_fixed_header c MQTT_DISCONNECT 0 0
  if r.2 ≠ 0 then (r.1, -1)
  else ({ r.1 with state := ClientState.disconnected }, 0)

/-- `handle_control_ping`: writes a zero-length pingreq and records the
ping as in flight. -/
def handle_control_ping (c : Client) : Client × Int :=
  let r := write_fixed_header c MQTT_PINGREQ 0 0
  if r.2 ≠ 0 then r
  else ({ r.1 with messageType := ControlType.ping }, 0)

/-- `handle_response_ping`: requires a ping in flight, clears the in-flight
slot, and requires a zero remaining length; reads no input bytes. -/
def handle_response_ping (c : Client) (size : Nat) : Client × Int :=
  if c.messageType ≠ ControlType.ping then (c, -1)
  else
    let c1 : Client := { c with messageType := ControlType.none_ }
    if size ≠ 0 then (c1, -EMSGSIZE)
    else (c1, 0)

/-- The bytes a successful `handle_control_publish` puts on the wire under
the amended reading: fixed header with flags `qos << 1`, the topic length
prefix as the C code writes it (a literal 0 then the size truncated to a
byte), the topic, the constant packet identifier 1 when QoS is positive,
then the payload. -/
def publish_packet_bytes (m : AppMessage) : List Nat :=
  fixed_header_bytes MQTT_PUBLISH (m.qos <<< 1)
      (m.topic.size + m.payload.size + 2 + (if m.qos > 0 then 2 else 0))
  ++ [0, m.topic.size % 256]
  ++ (m.topic.buf_p.getD []).take m.topic.size
  ++ (if m.qos > 0 then [0, 1] else [])
  ++ (m.payload.buf_p.getD []).take m.payload.size

/-- The payload write at the end of `handle_control_publish` (skipped for
an empty payload), followed by the in-flight update. -/
def publish_payload (c : Client) (m : AppMessage) : Client × Int :=
  if m.payload.size > 0 then
    let w := chan_write c.out ((m.payload.buf_p.getD []).take m.payload.size)
    let c5 : Client := { c with out := w.1 }
    if w.2 ≠ m.payload.size then (c5, - EIO)
    else ({ c5 with messageType := ControlType.publish }, 0)
  else ({ c with messageType := ControlType.publish }, 0)

/-- `handle_control_publish`: writes the publish packet — fixed header with
flags `qos << 1` and remaining length `topic.size + payload.size + 2`
(plus 2 when QoS is positive), a topic length prefix whose first byte is
the literal 0 and whose second is `topic.size` truncated to a `uint8_t`,
the topic bytes, the packet identifier `0x0001` when QoS is positive, and
the payload — then records the publish as in flight. -/
def handle_control_publish (c : Client) (m : AppMessage) : Client × Int :=
  let size := m.topic.size + m.payload.size + 2 + (if m.qos > 0 then 2 else 0)
  let r1 := write_fixed_header c MQTT_PUBLISH (m.qos <<< 1) size
  if r1.2 ≠ 0 then r1
  else
    let w1 := chan_write r1.1.out [0, m.topic.size % 256]
    let c2 : Client := { r1.1 with out := w1.1 }
    if w1.2 ≠ 2 then (c2, - EIO)
    else
      let w2 := chan_write c2.out ((m.topic.buf_p.getD []).take m.topic.size)
      let c3 : Client := { c2 with out := w2.1 }
      if w2.2 ≠ m.topic.size then (c3, - EIO)
      else if m.qos > 0 then
        let w3 := chan_write c3.out [0, 1]
        let c4 : Client := { c3 with out := w3.1 }
        if w3.2 ≠ 2 then (c4, - EIO)
        else publish_payload c4 m
      else publish_payload c3 m

/-- `handle_response_puback`: requires a publish in flight (checked before
any byte is read), clears the in-flight slot, requires size 2, reads the
two bytes and requires the packet identifier `0x0001`. -/
def handle_response_puback (c : Client) (size : Nat) : Client × Int :=
  if c.messageType ≠ ControlType.publish then (c, -1)
  else
    let c1 : Client := { c with messageType := ControlType.none_ }
    if size ≠ 2 then (c1, -EMSGSIZE)
    else
      let buf := chan_read_bytes c1.input size
      let c2 : Client := { c1 with input := chan_read_rest c1.input size }
      if chan_read_count c1.input size ≠ size then (c2, - EIO)
      else if buf.getD 0 0 ≠ 0 then (c2, -1)
      else if buf.getD 1 0 ≠ 1 then (c2, -1)
      else (c2, 0)

/-- `handle_control_subscribe`: writes the subscribe packet — fixed header
with flags 2 and remaining length `topic.size + 5`, packet identifier
`0x0001`, big-endian topic filter length, topic filter, and the requested
QoS byte — then records the subscribe as in flight. -/
def handle_control_subscribe (c : Client) (m : AppMessage) : Client × Int :=
  let r1 := write_fixed_header c MQTT_SUBSCRIBE 2 (m.topic.size + 5)
  if r1.2 ≠ 0 then r1
  else
    let w1 := chan_write r1.1.out [0, 1]
    let c2 : Client := { r1.1 with out := w1.1 }
    if w1.2 ≠ 2 then (c2, - EIO)
    else
      let w2 := chan_write c2.out [(m.topic.size >>> 8) &&& 0xff, m.topic.size &&& 0xff]
      let c3 : Client := { c2 with out := w2.1 }
      if w2.2 ≠ 2 then (c3, - EIO)
      else
        let w3 := chan_write c3.out ((m.topic.buf_p.getD []).take m.topic.size)
        let c4 : Client := { c3 with out := w3.1 }
        if w3.2 ≠ m.topic.size then (c4, - EIO)
        else
          let w4 := chan_write c4.out [m.qos % 256]
          let c5 : Client := { c4 with out := w4.1 }
          if w4.2 ≠ 1 then (c5, - EIO)
          else ({ c5 with messageType := ControlType.subscribe }, 0)

/-- `handle_response_suback`: requires a subscribe in flight (checked
before any byte is read), clears the in-flight slot, requires size 3,
reads the three bytes, requires the packet identifier `0x0001` and a
granted QoS of at most 2. -/
def handle_response_suback (c : Client) (size : Nat) : Client × Int :=
  if c.messageType ≠ ControlType.subscribe then (c, -1)
  else
    let c1 : Client := { c with messageType := ControlType.none_ }
    if size ≠ 3 then (c1, -EMSGSIZE)
    else
      let buf := chan_read_bytes c1.input size
      let c2 : Client := { c1 with input := chan_read_rest c1.input size }
      if chan_read_count c1.input size ≠ size then (c2, - EIO)
      else if buf.getD 0 0 ≠ 0 then (c2, -1)
      else if buf.getD 1 0 ≠ 1 then (c2, -1)
      else if buf.getD 2 0 > 2 then (c2, -1)
      else (c2, 0)

/-- `handle_control_unsubscribe`: writes the unsubscribe packet — fixed
header with flags 2 and remaining length `topic.size + 4`, packet
identifier `0x0002`, big-endian topic filter length and topic filter —
then records the unsubscribe as in flight. -/
def handle_control_unsubscribe (c : Client) (m : AppMessage) : Client × Int :=
  let r1 := write_fixed_header c MQTT_UNSUBSCRIBE 2 (m.topic.size + 4)
  if r1.2 ≠ 0 then r1
  else
    let w1 := chan_write r1.1.out [0, 2]
    let c2 : Client := { r1.1 with out := w1.1 }
    if w1.2 ≠ 2 then (c2, - EIO)
    else
      let w2 := chan_write c2.out [(m.topic.size >>> 8) &&& 0xff, m.topic.size &&& 0xff]
      let c3 : Client := { c2 with out := w2.1 }
      if w2.2 ≠ 2 then (c3, - EIO)
      else
        let w3 := chan_write c3.out ((m.topic.buf_p.getD []).take m.topic.size)
        let c4 : Client := { c3 with out := w3.1 }
        if w3.2 ≠ m.topic.size then (c4, - EIO)
        else ({ c4 with messageType := ControlType.unsubscribe }, 0)

/-- `handle_response_unsuback`: requires an unsubscribe in flight (checked
before any byte is read), clears the in-flight slot, requires size 2,
reads the two bytes and requires the packet identifier `0x0002`. -/
def handle_response_unsuback (c : Client) (size : Nat) : Client × Int :=
  if c.messageType ≠ ControlType.unsubscribe then (c, -1)
  else
    let c1 : Client := { c with messageType := ControlType.none_ }
    if size ≠ 2 then (c1, -EMSGSIZE)
    else
      let buf := chan_read_bytes c1.input size
      let c2 : Client := { c1 with input := chan_read_rest c1.input size }
      if chan_read_count c1.input size ≠ size then (c2, - EIO)
      else if buf.getD 0 0 ≠ 0 then (c2, -1)
      else if buf.getD 1 0 ≠ 2 then (c2, -1)
      else (c2, 0)

/-- The on-publish invocation at the end of `handle_publish`: the callback
receives the null-terminated topic and the payload length; its contract is
to drain exactly that many payload bytes from the transport input, which
the model performs on its behalf. A non-zero callback result becomes `-1`.
The third component lists the invocation (topic passed, payload length
passed) so theorems can talk about what the callback was given. -/
def publish_deliver (onPub : List Nat → Nat → Int) (c : Client) (topic : List Nat)
    (payload_size : Nat) : Client × Int × List (List Nat × Nat) :=
  let c5 : Client := { c with input := c.input.drop payload_size }
  if onPub topic payload_size ≠ 0 then (c5, -1, [(topic, payload_size)])
  else (c5, 0, [(topic, payload_size)])

/-- The QoS 1/2 arm of `handle_publish`, after the topic has been read:
reads the two-byte packet identifier, writes a puback (QoS 1) or pubrec
(QoS 2) fixed header — any other positive QoS is `-EPROTO` — echoes the
packet identifier as the variable header, and delivers with payload
length `size - topic_size - 4`. -/
def handle_publish_ack (onPub : List Nat → Nat → Int) (c2 : Client)
    (size topic_size : Nat) (topic : List Nat) (qos : Nat) :
    Client × Int × List (List Nat × Nat) :=
  let pid := chan_read_bytes c2.input 2
  let c3 : Client := { c2 with input := chan_read_rest c2.input 2 }
  if chan_read_count c2.input 2 ≠ 2 then (c3, - EIO, [])
  else
    let r : Client × Int :=
      if qos = 1 then write_fixed_header c3 MQTT_PUBACK 0 2
      else if qos = 2 then write_fixed_header c3 MQTT_PUBREC 0 2
      else (c3, -EPROTO)
    if r.2 ≠ 0 then (r.1, r.2, [])
    else
      let w := chan_write r.1.out pid
      let c4 : Client := { r.1 with out := w.1 }
      if w.2 ≠ 2 then (c4, - EIO, [])
      else publish_deliver onPub c4 (topic ++ [0]) (size - topic_size - 4)

/-- `handle_publish` (inbound publish): reads the two-byte topic length,
rejects topics longer than 127 bytes (the 128-byte scratch buffer keeps
one byte for the terminator), reads the topic, derives the QoS from bits
1–2 of the flags; for QoS 0 the payload length is `size - topic_size - 2`,
for positive QoS the acknowledgement arm is `handle_publish_ack`. It then
invokes the on-publish callback via `publish_deliver`. The C `size_t`
subtractions are mapped to `Nat` subtraction; the claims only concern
frames whose declared size covers the bytes consumed, where the two
agree. -/
def handle_publish (onPub : List Nat → Nat → Int) (c : Client) (size : Nat)
    (flags : Nat) : Client × Int × List (List Nat × Nat) :=
  let buf := chan_read_bytes c.input 2
  let c1 : Client := { c with input := chan_read_rest c.input 2 }
  if chan_read_count c.input 2 ≠ 2 then (c1, - EIO, [])
  else
    let topic_size := (buf.getD 0 0 <<< 8) ||| buf.getD 1 0
    if topic_size > 127 then (c1, -EMSGSIZE, [])
    else
      let topic := chan_read_bytes c1.input topic_size
      let c2 : Client := { c1 with input := chan_read_rest c1.input topic_size }
      if chan_read_count c1.input topic_size ≠ topic_size then (c2, - EIO, [])
      else
        let qos := (flags >>> 1) &&& 0x3
        if qos = 0 then
          publish_deliver onPub c2 (topic ++ [0]) (size - topic_size - 2)
        else
          handle_publish_ack onPub c2 size topic_size topic qos

/-- One application request dequeued from the inbound control channel: the
verb byte plus the caller-owned parameter the handler dequeues next.
`other b` is any verb byte outside the known range. -/
inductive CtrlMsg where
  | connect (opts : Option ConnOptions)
  | disconnect
  | ping
  | publish (m : AppMessage)
  | subscribe (m : AppMessage)
  | unsubscribe (m : AppMessage)
  | other (b : Nat)
deriving DecidableEq

/-- Result of one `read_control_message` dispatch: the updated client, the
value the function returns to the event loop, and the result codes posted
on the outbound control channel during the dispatch. -/
structure CtrlStep where
  client : Client
  ret : Int
  posted : List Int
deriving DecidableEq

/-- `read_control_message`: dequeues one verb; while disconnected only
connect is acted upon, while connected disconnect / ping / publish /
subscribe / unsubscribe are dispatched, anything else is silently
dropped. Only the disconnect branch posts its handler's result on the
outbound control channel, and the function returns 0 to the event loop on
every path (the local `res` holding the other handlers' results is
discarded by the final `return (0)`). -/
def read_control_message (c : Client) (msg : CtrlMsg) : CtrlStep :=
  match c.state with
  | ClientState.disconnected =>
      match msg with
      | CtrlMsg.connect opts? =>
          let r := handle_control_connect c opts?
          { client := r.1, ret := 0, posted := [] }
      | _ => { client := c, ret := 0, posted := [] }
  | ClientState.connected =>
      match msg with
      | CtrlMsg.disconnect =>
          let r := handle_control_disconnect c
          { client := r.1, ret := 0, posted := [r.2] }
      | CtrlMsg.ping =>
          let r := handle_control_ping c
          { client := r.1, ret := 0, posted := [] }
      | CtrlMsg.publish m =>
          let r := handle_control_publish c m
          { client := r.1, ret := 0, posted := [] }
      | CtrlMsg.subscribe m =>
          let r := handle_control_subscribe c m
          { client := r.1, ret := 0, posted := [] }
      | CtrlMsg.unsubscribe m =>
          let r := handle_control_unsubscribe c m
          { client := r.1, ret := 0, posted := [] }
      | _ => { client := c, ret := 0, posted := [] }

/-- Result of one `read_server_message` dispatch: the updated client, the
value returned to the event loop (which invokes on-error exactly when it
is non-zero), the result codes posted on the outbound control channel,
and the on-publish invocations performed. -/
structure ServerStep where
  client : Client
  res : Int
  posted : List Int
  pubs : List (List Nat × Nat)
deriving DecidableEq

/-- `read_server_message`: reads one fixed header (any failure is reported
as `- EIO`) and dispatches on the packet type; each acknowledgement
handler's result is both posted on the outbound control channel and
returned; pubrec / pubrel / pubcomp and unknown types are ignored with
result 0; an inbound publish's result is returned but not posted. -/
def read_server_message (onPub : List Nat → Nat → Int) (c : Client) : ServerStep :=
  match read_fixed_header c with
  | (c1, Except.error _) => { client := c1, res := - EIO, posted := [], pubs := [] }
  | (c1, Except.ok (type, flags, size)) =>
      if type = MQTT_CONNACK then
        let r := handle_response_connack c1 size
        { client := r.1, res := r.2, posted := [r.2], pubs := [] }
      else if type = MQTT_PUBACK then
        let r := handle_response_puback c1 size
        { client := r.1, res := r.2, posted := [r.2], pubs := [] }
      else if type = MQTT_PUBREC ∨ type = MQTT_PUBREL ∨ type = MQTT_PUBCOMP then
        { client := c1, res := 0, posted := [], pubs := [] }
      else if type = MQTT_SUBACK then
        let r := handle_response_suback c1 size
        { client := r.1, res := r.2, posted := [r.2], pubs := [] }
      else if type = MQTT_UNSUBACK then
        let r := handle_response_unsuback c1 size
        { client := r.1, res := r.2, posted := [r.2], pubs := [] }
      else if type = MQTT_PINGRESP then
        let r := handle_response_ping c1 size
        { client := r.1, res := r.2, posted := [r.2], pubs := [] }
      else if type = MQTT_PUBLISH then
        let r := handle_publish onPub c1 size flags
        { client := r.1, res := r.2.1, posted := [], pubs := r.2.2 }
      else { client := c1, res := 0, posted := [], pubs := [] }

/-- `mqtt_client_init`: state disconnected, no message in flight, empty
output transport that accepts every write, and the given transport input. -/
def mqtt_client_init (input : List Nat) : Client :=
  { state := ClientState.disconnected
    messageType := ControlType.none_
    out := { written := [], cap := Option.none }
    input := input }

/-! Spec-side definitions used only to state the claims. -/

/-- A well-formed MQTT string: size in `[1, 65535]`, a non-null buffer
holding at least `size` bytes. -/
abbrev ValidMqttString (s : MqttString) : Prop :=
  1 ≤ s.size ∧ s.size ≤ 0xffff ∧ s.buf_p ≠ Option.none ∧ s.size ≤ (s.buf_p.getD []).length

/-- Connect options whose present fields are well-formed strings, so that
every `write_mqtt_string` performed by `handle_control_connect` succeeds
on an unbounded transport: the will is symmetric (both parts present or
both absent), and each present string is valid. An empty client id is
allowed — it is replaced by the default. -/
abbrev ValidConnOptions (opts : ConnOptions) : Prop :=
  (opts.client_id.size = 0 ∨ ValidMqttString opts.client_id)
  ∧ ((opts.will.topic.size = 0 ∧ opts.will.payload.size = 0)
     ∨ (0 < opts.will.topic.size ∧ 0 < opts.will.payload.size
        ∧ ValidMqttString opts.will.topic ∧ ValidMqttString opts.will.payload))
  ∧ (opts.user_name.size = 0 ∨ ValidMqttString opts.user_name)
  ∧ (opts.password.size = 0 ∨ ValidMqttString opts.password)

/-- The transport input of `c` starts with a connack frame the client
accepts: the fixed header parses with type 2 and remaining length 2, and
the two variable-header bytes (connack flags, return code) are both 0. -/
def connack_accepted (c : Client) : Bool :=
  match read_fixed_header c with
  | (c1, Except.ok (type, _, size)) =>
      type == MQTT_CONNACK && size == 2
      && chan_read_count c1.input 2 == 2 && chan_read_bytes c1.input 2 == [0, 0]
  | (_, Except.error _) => false

/-- The transport input of `c` starts with a parseable fixed header whose
type is one of the five acknowledgements the loop posts results for
(connack, puback, suback, unsuback, pingresp). -/
def is_ack_frame (c : Client) : Bool :=
  match read_fixed_header c with
  | (_, Except.ok (type, _, _)) =>
      type == MQTT_CONNACK || type == MQTT_PUBACK || type == MQTT_SUBACK
      || type == MQTT_UNSUBACK || type == MQTT_PINGRESP
  | (_, Except.error _) => false

/-- An on-publish callback that always succeeds, for concrete scenarios. -/
def onPubZero : List Nat → Nat → Int := fun _ _ => 0

/-- Connect options with a will topic but no will payload — the asymmetric
will that `handle_control_connect` rejects with `-EINVAL`. -/
def asym_will_options : ConnOptions :=
  { default_conn_options with
    will := { topic := { buf_p := Option.some [97], size := 1 }
              payload := { buf_p := Option.none, size := 0 }
              qos := 0 } }

/-- A publish message whose topic is 256 bytes of `'a'` — large enough
that the single topic-length byte the publish handler writes truncates. -/
def oversize_topic_message : AppMessage :=
  { topic := { buf_p := Option.some (List.replicate 256 97), size := 256 }
    payload := { buf_p := Option.none, size := 0 }
    qos := 0 }

/-- The byte sequence the C2 claim predicts for the connect packet of
`opts`: fixed header with remaining length `10 + payload_length`, exactly
the ten claimed variable-header bytes, then the payload strings. -/
def claimed_connect_bytes (opts : ConnOptions) : List Nat :=
  fixed_header_bytes MQTT_CONNECT 0 (10 + connect_payload_length opts)
  ++ [0, 4, 77, 81, 84, 84, 4, connect_flags opts % 256, MSB KEEP_ALIVE, LSB KEEP_ALIVE]
  ++ connect_payload_bytes opts

/-- The byte sequence the amended C2 claim states: remaining length
`12 + payload_length` and a twelve-byte variable header ending in the two
big-endian payload-length bytes. -/
def amended_connect_bytes (opts : ConnOptions) : List Nat :=
  fixed_header_bytes MQTT_CONNECT 0 (12 + connect_payload_length opts)
  ++ [0, 4, 77, 81, 84, 84, 4, connect_flags opts % 256, MSB KEEP_ALIVE, LSB KEEP_ALIVE,
      MSB (connect_payload_length opts), LSB (connect_payload_length opts)]
  ++ connect_payload_bytes opts

/-- The literal 26-byte sequence of the spec's connect / connack scenario:
`10 18 00 04 M Q T T 04 02 01 2C 00 0A 00 0A s i m b a _ m q t t`. -/
def spec_connect_scenario_bytes : List Nat :=
  [0x10, 0x18, 0x00, 0x04, 77, 81, 84, 84, 0x04, 0x02, 0x01, 0x2C,
   0x00, 0x0A, 0x00, 0x0A, 115, 105, 109, 98, 97, 95, 109, 113, 116, 116]

/-- The byte sequence the C5 claim predicts for the publish packet of `m`:
fixed header with flags `qos << 1`, the two-byte big-endian topic length,
the topic, packet identifier `0x0001` when QoS ≥ 1, then the payload. -/
def claimed_publish_bytes (m : AppMessage) : List Nat :=
  fixed_header_bytes MQTT_PUBLISH (m.qos <<< 1)
      (m.topic.size + 2 + (if m.qos > 0 then 2 else 0) + m.payload.size)
  ++ [MSB m.topic.size, LSB m.topic.size]
  ++ (m.topic.buf_p.getD []).take m.topic.size
  ++ (if m.qos > 0 then [0, 1] else [])
  ++ (m.payload.buf_p.getD []).take m.payload.size

/-! Helper lemmas about the embedding. -/

@[simp] theorem chan_write_none (w bs : List Nat) :
    chan_write { written := w, cap := Option.none } bs =
      ({ written := w ++ bs, cap := Option.none }, bs.length) := rfl

@[simp] theorem write_fixed_header_state (c : Client) (t f s : Nat) :
    ((write_fixed_header c t f s).1).state = c.state := by
  unfold write_fixed_header
  dsimp only
  split <;> rfl

@[simp] theorem write_fixed_header_messageType (c : Client) (t f s : Nat) :
    ((write_fixed_header c t f s).1).messageType = c.messageType := by
  unfold write_fixed_header
  dsimp only
  split <;> rfl

@[simp] theorem write_fixed_header_input (c : Client) (t f s : Nat) :
    ((write_fixed_header c t f s).1).input = c.input := by
  unfold write_fixed_header
  dsimp only
  split <;> rfl

/-- On an unbounded transport `write_fixed_header` appends the header
bytes and succeeds. -/
theorem write_fixed_header_none (c : Client) (t f s : Nat)
    (h : c.out.cap = Option.none) :
    write_fixed_header c t f s =
      ({ c with out := { written := c.out.written ++ fixed_header_bytes t f s,
                         cap := Option.none } }, 0) := by
  unfold write_fixed_header chan_write
  rw [h]
  simp

@[simp] theorem write_mqtt_string_state (c : Client) (s : MqttString) :
    ((write_mqtt_string c s).1).state = c.state := by
  unfold write_mqtt_string
  dsimp only
  split <;> try rfl
  split <;> try rfl
  split <;> try rfl
  split <;> rfl

@[simp] theorem write_mqtt_string_messageType (c : Client) (s : MqttString) :
    ((write_mqtt_string c s).1).messageType = c.messageType := by
  unfold write_mqtt_string
  dsimp only
  split <;> try rfl
  split <;> try rfl
  split <;> try rfl
  split <;> rfl

@[simp] theorem write_mqtt_string_input (c : Client) (s : MqttString) :
    ((write_mqtt_string c s).1).input = c.input := by
  unfold write_mqtt_string
  dsimp only
  split <;> try rfl
  split <;> try rfl
  split <;> try rfl
  split <;> rfl

/-- A valid string on an unbounded transport is written in full. -/
theorem write_mqtt_string_none (c : Client) (s : MqttString)
    (hcap : c.out.cap = Option.none) (hv : ValidMqttString s) :
    write_mqtt_string c s =
      ({ c with out := { written := c.out.written ++ mqtt_string_bytes s,
                         cap := Option.none } }, 0) := by
  obtain ⟨h1, h2, h3, h4⟩ := hv
  unfold write_mqtt_string chan_write
  rw [hcap]
  simp only [mqtt_string_bytes]
  have hsz : s.size ≠ 0 := by omega
  have hlen : ((s.buf_p.getD []).take s.size).length = s.size := by
    simp [List.length_take]
    omega
  simp [hsz, h3, hlen, Nat.not_lt.mpr h2]

@[simp] theorem connect_fin_state (c : Client) (o : ConnOptions) :
    ((connect_fin c o).1).state = c.state := by
  unfold connect_fin
  dsimp only
  repeat' split
  all_goals simp

@[simp] theorem connect_tail_state (c : Client) (o : ConnOptions) :
    ((connect_tail c o).1).state = c.state := by
  unfold connect_tail
  dsimp only
  repeat' split
  all_goals simp

@[simp] theorem handle_control_connect_state (c : Client) (o : Option ConnOptions) :
    ((handle_control_connect c o).1).state = c.state := by
  unfold handle_control_connect
  dsimp only
  repeat' split
  all_goals simp

@[simp] theorem connect_fin_input (c : Client) (o : ConnOptions) :
    ((connect_fin c o).1).input = c.input := by
  unfold connect_fin
  dsimp only
  repeat' split
  all_goals simp

@[simp] theorem connect_tail_input (c : Client) (o : ConnOptions) :
    ((connect_tail c o).1).input = c.input := by
  unfold connect_tail
  dsimp only
  repeat' split
  all_goals simp

@[simp] theorem handle_control_connect_input (c : Client) (o : Option ConnOptions) :
    ((handle_control_connect c o).1).input = c.input := by
  unfold handle_control_connect
  dsimp only
  repeat' split
  all_goals simp

@[simp] theorem handle_control_disconnect_input (c : Client) :
    ((handle_control_disconnect c).1).input = c.input := by
  unfold handle_control_disconnect
  dsimp only
  repeat' split
  all_goals simp

@[simp] theorem handle_control_ping_state (c : Client) :
    ((handle_control_ping c).1).state = c.state := by
  unfold handle_control_ping
  dsimp only
  repeat' split
  all_goals simp

@[simp] theorem publish_payload_state (c : Client) (m : AppMessage) :
    ((publish_payload c m).1).state = c.state := by
  unfold publish_payload
  dsimp only
  repeat' split
  all_goals simp

@[simp] theorem handle_control_publish_state (c : Client) (m : AppMessage) :
    ((handle_control_publish c m).1).state = c.state := by
  unfold handle_control_publish
  dsimp only
  repeat' split
  all_goals simp

@[simp] theorem handle_control_subscribe_state (c : Client) (m : AppMessage) :
    ((handle_control_subscribe c m).1).state = c.state := by
  unfold handle_control_subscribe
  dsimp only
  repeat' split
  all_goals simp

@[simp] theorem handle_control_unsubscribe_state (c : Client) (m : AppMessage) :
    ((handle_control_unsubscribe c m).1).state = c.state := by
  unfold handle_control_unsubscribe
  dsimp only
  repeat' split
  all_goals simp

@[simp] theorem handle_response_puback_state (c : Client) (size : Nat) :
    ((handle_response_puback c size).1).state = c.state := by
  unfold handle_response_puback
  dsimp only
  repeat' split
  all_goals simp

@[simp] theorem handle_response_suback_state (c : Client) (size : Nat) :
    ((handle_response_suback c size).1).state = c.state := by
  unfold handle_response_suback
  dsimp only
  repeat' split
  all_goals simp

@[simp] theorem handle_response_unsuback_state (c : Client) (size : Nat) :
    ((handle_response_unsuback c size).1).state = c.state := by
  unfold handle_response_unsuback
  dsimp only
  repeat' split
  all_goals simp

@[simp] theorem handle_response_ping_state (c : Client) (size : Nat) :
    ((handle_response_ping c size).1).state = c.state := by
  unfold handle_response_ping
  dsimp only
  repeat' split
  all_goals simp

@[simp] theorem publish_deliver_state (onPub : List Nat → Nat → Int)
    (c : Client) (topic : List Nat) (n : Nat) :
    ((publish_deliver onPub c topic n).1).state = c.state := by
  unfold publish_deliver
  dsimp only
  repeat' split
  all_goals simp

@[simp] theorem handle_publish_ack_state (onPub : List Nat → Nat → Int)
    (c2 : Client) (size topic_size : Nat) (topic : List Nat) (qos : Nat) :
    ((handle_publish_ack onPub c2 size topic_size topic qos).1).state = c2.state := by
  unfold handle_publish_ack
  dsimp only
  repeat' split
  all_goals simp

@[simp] theorem handle_publish_state (onPub : List Nat → Nat → Int)
    (c : Client) (size flags : Nat) :
    ((handle_publish onPub c size flags).1).state = c.state := by
  unfold handle_publish
  dsimp only
  repeat' split
  all_goals simp

@[simp] theorem read_fixed_header_state (c : Client) :
    ((read_fixed_header c).1).state = c.state := by
  unfold read_fixed_header
  dsimp only
  repeat' split
  all_goals simp

@[simp] theorem read_fixed_header_messageType (c : Client) :
    ((read_fixed_header c).1).messageType = c.messageType := by
  unfold read_fixed_header
  dsimp only
  repeat' split
  all_goals simp

@[simp] theorem read_fixed_header_out (c : Client) :
    ((read_fixed_header c).1).out = c.out := by
  unfold read_fixed_header
  dsimp only
  repeat' split
  all_goals simp

theorem LSB_eq_mod (n : Nat) : LSB n = n % 256 := by
  unfold LSB
  have h : (0xff : Nat) = 2 ^ 8 - 1 := by norm_num
  rw [h, Nat.and_pow_two_sub_one_eq_mod]

theorem MSB_eq_zero (n : Nat) (h : n ≤ 255) : MSB n = 0 := by
  unfold MSB
  have hs : n >>> 8 = 0 := by
    rw [Nat.shiftRight_eq_div_pow]
    omega
  simp [hs]

/-! The claims. -/

/-- Claim C4 (code bug): the claim states that parsing the fixed header
produced by the encoder for any `(type, flags, L)` with `L ≤ 268435455`
succeeds and round-trips. The code fails this for every `L` needing a
four-byte encoding: at `type = 1`, `flags = 0`, `L = 2097152` the encoder
emits `10 80 80 80 01`, and the decoder rejects its own encoder's output
with `-1`, because the multiplier-overflow guard runs before the
continuation bit of the fourth byte is examined. -/
theorem mqtt_C4_roundtrip_fails_at_2097152 :
    fixed_header_bytes 1 0 2097152 = [0x10, 0x80, 0x80, 0x80, 0x01] ∧
    read_fixed_header (mqtt_client_init (fixed_header_bytes 1 0 2097152)) =
      (mqtt_client_init [], Except.error (-1)) ∧
    read_fixed_header (mqtt_client_init (fixed_header_bytes 1 0 2097151)) =
      (mqtt_client_init [], Except.ok (1, 0, 2097151)) := by decide

/-- Claim C10: every acknowledgement handler (connack, puback, suback,
unsuback, pingresp) checks the in-flight type before reading any input
byte, so on a mismatch it returns the error `-1` with the client — in
particular the transport input and the in-flight type — completely
unchanged. -/
theorem mqtt_C10_ack_mismatch_leaves_input (c : Client) (size : Nat) :
    (c.messageType ≠ ControlType.connect → handle_response_connack c size = (c, -1)) ∧
    (c.messageType ≠ ControlType.publish → handle_response_puback c size = (c, -1)) ∧
    (c.messageType ≠ ControlType.subscribe → handle_response_suback c size = (c, -1)) ∧
    (c.messageType ≠ ControlType.unsubscribe → handle_response_unsuback c size = (c, -1)) ∧
    (c.messageType ≠ ControlType.ping → handle_response_ping c size = (c, -1)) := by
  refine ⟨fun h => ?_, fun h => ?_, fun h => ?_, fun h => ?_, fun h => ?_⟩
  · simp [handle_response_connack, h]
  · simp [handle_response_puback, h]
  · simp [handle_response_suback, h]
  · simp [handle_response_unsuback, h]
  · simp [handle_response_ping, h]

/-- Witness for C10: a freshly initialised client (no message in flight,
two unread input bytes) is untouched by all five mismatching acks. -/
theorem mqtt_C10_witness :
    handle_response_connack (mqtt_client_init [0, 0]) 2 = (mqtt_client_init [0, 0], -1) ∧
    handle_response_puback (mqtt_client_init [0, 0]) 2 = (mqtt_client_init [0, 0], -1) ∧
    handle_response_suback (mqtt_client_init [0, 0]) 3 = (mqtt_client_init [0, 0], -1) ∧
    handle_response_unsuback (mqtt_client_init [0, 0]) 2 = (mqtt_client_init [0, 0], -1) ∧
    handle_response_ping (mqtt_client_init [0, 0]) 0 = (mqtt_client_init [0, 0], -1) := by
  refine ⟨(mqtt_C10_ack_mismatch_leaves_input (mqtt_client_init [0, 0]) 2).1 (by decide),
    (mqtt_C10_ack_mismatch_leaves_input (mqtt_client_init [0, 0]) 2).2.1 (by decide),
    (mqtt_C10_ack_mismatch_leaves_input (mqtt_client_init [0, 0]) 3).2.2.1 (by decide),
    (mqtt_C10_ack_mismatch_leaves_input (mqtt_client_init [0, 0]) 2).2.2.2.1 (by decide),
    (mqtt_C10_ack_mismatch_leaves_input (mqtt_client_init [0, 0]) 0).2.2.2.2 (by decide)⟩

/-- Counterexample to C3 as stated: on a connect with empty client id the
client does not write the spec's literal sequence — bytes 12–13 of the
actual packet are `00 0C` (the payload length 12, counting the 2-byte
string header) where the spec scenario shows `00 0A`. -/
theorem mqtt_C3_counterexample :
    (read_control_message (mqtt_client_init [0x20, 0x02, 0x00, 0x00])
        (CtrlMsg.connect (Option.some default_conn_options))).client.out.written ≠
      spec_connect_scenario_bytes := by decide

/-- Claim C3 (amended): connect with an empty client id and no will,
username or password writes exactly
`10 18 00 04 M Q T T 04 02 01 2C 00 0C 00 0A s i m b a _ m q t t`
(the spec's sequence with the payload-length field corrected from
`00 0A` to `00 0C`); when the server then replies `20 02 00 00`, the
result 0 is posted to the waiting connect entry point and the client
state becomes connected. -/
theorem mqtt_C3_amended_connect_scenario :
    (read_control_message (mqtt_client_init [0x20, 0x02, 0x00, 0x00])
        (CtrlMsg.connect (Option.some default_conn_options))).client.out.written =
      [0x10, 0x18, 0x00, 0x04, 77, 81, 84, 84, 0x04, 0x02, 0x01, 0x2C,
       0x00, 0x0C, 0x00, 0x0A, 115, 105, 109, 98, 97, 95, 109, 113, 116, 116] ∧
    (read_server_message onPubZero
        (read_control_message (mqtt_client_init [0x20, 0x02, 0x00, 0x00])
          (CtrlMsg.connect (Option.some default_conn_options))).client).posted = [0] ∧
    (read_server_message onPubZero
        (read_control_message (mqtt_client_init [0x20, 0x02, 0x00, 0x00])
          (CtrlMsg.connect (Option.some default_conn_options))).client).client.state =
      ClientState.connected := by decide

/-- Counterexample to C2 as stated: already on the empty-options connect
the packet written is not the claimed one — the actual remaining length
is `12 + payload_length` (24), not `10 + payload_length` (22), and the
variable header has twelve bytes, not ten. -/
theorem mqtt_C2_counterexample :
    (handle_control_connect (mqtt_client_init [])
        (Option.some default_conn_options)).1.out.written ≠
      claimed_connect_bytes default_conn_options := by decide

/-- Claim C7: writing an MQTT string fails with invalid-argument exactly
when the string is empty, its buffer is null, or its size exceeds 65535;
a valid string (one whose buffer really holds its `size` bytes) is
written as the two-byte big-endian length followed by exactly `size`
bytes of the buffer, and the only other failure is the I/O error `- EIO`,
raised exactly when the transport accepts fewer than the `2 + size`
bytes of the write. -/
theorem mqtt_C7_write_mqtt_string (c : Client) (s : MqttString) :
    ((write_mqtt_string c s).2 = -EINVAL ↔
      (s.size = 0 ∨ s.buf_p = Option.none ∨ s.size > 0xffff)) ∧
    (ValidMqttString s →
      (c.out.cap = Option.none →
        write_mqtt_string c s =
          ({ c with out := { written := c.out.written ++ mqtt_string_bytes s,
                             cap := Option.none } }, 0)) ∧
      (∀ k : Nat, c.out.cap = Option.some k →
        ((write_mqtt_string c s).2 = 0 ↔ 2 + s.size ≤ k) ∧
        (¬ 2 + s.size ≤ k → (write_mqtt_string c s).2 = - EIO))) := by
  constructor
  · by_cases h1 : s.size = 0 ∨ s.buf_p = Option.none
    · simp [write_mqtt_string, h1]
      rcases h1 with h1 | h1 <;> simp [h1]
    · by_cases h2 : s.size > 0xffff
      · simp [write_mqtt_string, h1, h2]
      · simp only [write_mqtt_string, if_neg h1, if_neg h2]
        push_neg at h1 h2
        split_ifs <;> simp_all [ EIO, EINVAL]
  · intro hv
    refine ⟨fun hcap => write_mqtt_string_none c s hcap hv, fun k hk => ?_⟩
    obtain ⟨hs1, hs2, hs3, hs4⟩ := hv
    have h1 : ¬ (s.size = 0 ∨ s.buf_p = Option.none) := by
      push_neg
      exact ⟨by omega, hs3⟩
    have hlen : ((s.buf_p.getD []).take s.size).length = s.size := by
      simp [List.length_take]
      omega
    simp only [write_mqtt_string, if_neg h1, if_neg (by omega : ¬ s.size > 0xffff)]
    unfold chan_write
    rw [hk]
    simp only [List.length_cons, List.length_nil]
    constructor
    · constructor
      · intro hres
        by_contra hcontra
        revert hres
        split_ifs <;> simp_all [ EIO] <;> omega
      · intro hle
        split_ifs with hw1 hw2
        · exfalso
          simp at hw1
          omega
        · exfalso
          rw [hlen] at hw2
          simp at hw2
          omega
        · rfl
    · intro hgt
      split_ifs with hw1 hw2
      · rfl
      · rfl
      · exfalso
        rw [hlen] at hw2
        simp at hw1 hw2
        omega

/-- Witness for C7: the valid three-byte string `[7, 8, 9]` is written on
an unbounded transport as its header `00 03` followed by its bytes. -/
theorem mqtt_C7_witness :
    write_mqtt_string (mqtt_client_init []) { buf_p := Option.some [7, 8, 9], size := 3 } =
      ({ mqtt_client_init [] with
          out := { written := (mqtt_client_init []).out.written
                      ++ mqtt_string_bytes { buf_p := Option.some [7, 8, 9], size := 3 },
                   cap := Option.none } }, 0) :=
  ((mqtt_C7_write_mqtt_string (mqtt_client_init [])
      { buf_p := Option.some [7, 8, 9], size := 3 }).2 (by decide)).1 rfl

/-- Claim C8: with a subscribe in flight, the suback handler returns 0
exactly when the declared size is 3, three bytes are available, the
packet identifier is `0x0001` and the granted QoS (third byte) is at most
2 — on any other input it returns a non-zero error. In particular, for a
suback frame `90 03 00 01 g` whose granted-QoS byte exceeds 2 (such as
0x80), the dispatcher posts the protocol error `-1` on the outbound
control channel, so the blocked subscribe caller receives it. -/
theorem mqtt_C8_suback (c : Client) (size : Nat)
    (h : c.messageType = ControlType.subscribe) :
    ((handle_response_suback c size).2 = 0 ↔
      (size = 3 ∧ chan_read_count c.input 3 = 3 ∧
        (chan_read_bytes c.input 3).getD 0 0 = 0 ∧
        (chan_read_bytes c.input 3).getD 1 0 = 1 ∧
        (chan_read_bytes c.input 3).getD 2 0 ≤ 2)) ∧
    (∀ (onPub : List Nat → Nat → Int) (g : Nat) (rest : List Nat), g % 256 > 2 →
      (read_server_message onPub { c with input := 0x90 :: 3 :: 0 :: 1 :: g :: rest }).posted
          = [-1] ∧
      (read_server_message onPub { c with input := 0x90 :: 3 :: 0 :: 1 :: g :: rest }).res
          = -1) := by
  constructor
  · unfold handle_response_suback
    simp only [h]
    split_ifs <;> simp_all [EMSGSIZE, EIO]
  · intro onPub g rest hg
    have hr : read_fixed_header { c with input := 0x90 :: 3 :: 0 :: 1 :: g :: rest } =
        ({ c with input := 0 :: 1 :: g :: rest }, Except.ok (9, 0, 3)) := by
      unfold read_fixed_header read_remaining_length
      have e1 : (3 : Nat) &&& 128 = 0 := by decide
      have e2 : (3 : Nat) &&& 127 = 3 := by decide
      have e3 : (9 : Nat) &&& 15 = 9 := by decide
      have e4 : (144 : Nat) &&& 15 = 0 := by decide
      simp [e1, e2, e3, e4]
    have hs : handle_response_suback { c with input := 0 :: 1 :: g :: rest } 3 =
        ({ c with messageType := ControlType.none_, input := rest }, -1) := by
      unfold handle_response_suback
      simp [h, chan_read_count, chan_read_bytes, chan_read_rest]
      omega
    unfold read_server_message
    rw [hr]
    norm_num [MQTT_CONNACK, MQTT_PUBACK, MQTT_PUBREC, MQTT_PUBREL, MQTT_PUBCOMP,
      MQTT_SUBACK, hs]

/-- Witness for C8: with a subscribe in flight and the suback frame
`90 03 00 01 80` (granted QoS 0x80) on the input, the dispatcher posts
the protocol error `-1`: the spec's scenario 4 failure case. -/
theorem mqtt_C8_witness :
    (read_server_message onPubZero
        { { mqtt_client_init [] with messageType := ControlType.subscribe } with
            input := 0x90 :: 3 :: 0 :: 1 :: 128 :: [] }).posted = [-1] ∧
    (read_server_message onPubZero
        { { mqtt_client_init [] with messageType := ControlType.subscribe } with
            input := 0x90 :: 3 :: 0 :: 1 :: 128 :: [] }).res = -1 :=
  (mqtt_C8_suback { mqtt_client_init [] with messageType := ControlType.subscribe }
      3 rfl).2 onPubZero 128 [] (by decide)

/-- Claim C9: an inbound publish frame with QoS 1 flags and a topic of at
most 127 bytes makes the client read the two-byte topic length, the
topic and the two-byte packet identifier, write back the puback
`40 02 p1 p2` echoing that identifier, and invoke the on-publish callback
with the null-terminated topic and payload length `size - topic.size - 4`
(the callback then drains that many bytes of the remaining input). -/
theorem mqtt_C9_inbound_publish_qos1 (onPub : List Nat → Nat → Int) (c : Client)
    (size flags : Nat) (topic : List Nat) (p1 p2 : Nat) (rest : List Nat)
    (hq : (flags >>> 1) &&& 3 = 1)
    (hlen : topic.length ≤ 127)
    (hin : c.input = 0 :: topic.length :: (topic ++ p1 :: p2 :: rest))
    (hsz : topic.length + 4 ≤ size)
    (hcap : c.out.cap = Option.none) :
    handle_publish onPub c size flags =
      ({ c with
          input := rest.drop (size - topic.length - 4),
          out := { written := c.out.written ++ [0x40, 0x02, p1 % 256, p2 % 256],
                   cap := Option.none } },
       (if onPub ((topic.map fun b => b % 256) ++ [0]) (size - topic.length - 4) = 0
        then 0 else -1),
       [((topic.map fun b => b % 256) ++ [0], size - topic.length - 4)]) := by
  obtain ⟨st, mt, ⟨w, cap⟩, input⟩ := c
  simp only at hin hcap
  subst hin hcap
  have hmod : topic.length % 256 = topic.length := Nat.mod_eq_of_lt (by omega)
  unfold handle_publish
  simp only [chan_read_bytes, chan_read_count, chan_read_rest, List.take_succ_cons,
    List.take_zero, List.drop_succ_cons, List.drop_zero, List.map_cons, List.map_nil,
    List.length_cons, List.length_append, List.getD_cons_zero, List.getD_cons_succ,
    Nat.zero_mod, hmod, Nat.zero_shiftLeft, Nat.zero_or]
  rw [if_neg (by omega), if_neg (by omega : ¬ topic.length > 127)]
  rw [List.take_left, List.drop_left]
  rw [if_neg (by omega), hq, if_neg (by omega : ¬ (1 : Nat) = 0)]
  unfold handle_publish_ack
  simp only [chan_read_bytes, chan_read_count, chan_read_rest, List.take_succ_cons,
    List.take_zero, List.drop_succ_cons, List.drop_zero, List.map_cons, List.map_nil,
    List.length_cons]
  rw [if_neg (by omega)]
  have hfh : fixed_header_bytes MQTT_PUBACK 0 2 = [0x40, 0x02] := by decide
  have hwf : write_fixed_header
      { state := st, messageType := mt, out := { written := w, cap := Option.none },
        input := rest } MQTT_PUBACK 0 2 =
      ({ state := st, messageType := mt,
         out := { written := w ++ [0x40, 0x02], cap := Option.none },
         input := rest }, 0) := by
    rw [write_fixed_header_none _ _ _ _ rfl, hfh]
  simp only [if_pos rfl, hwf, chan_write_none]
  unfold publish_deliver
  norm_num
  split <;> simp_all [List.append_assoc]

/-- Witness for C9: the spec's scenario 5 frame (with the declared size 9
actually covering its bytes): on input `00 03 a / b 00 05 h i` with QoS 1
flags, the client writes puback `40 02 00 05` and the callback receives
topic `"a/b"` (null-terminated) with payload length 2, draining `h i`. -/
theorem mqtt_C9_witness :
    handle_publish onPubZero
        { mqtt_client_init [0, 3, 97, 47, 98, 0, 5, 104, 105] with
            state := ClientState.connected } 9 2 =
      ({ { mqtt_client_init [] with state := ClientState.connected } with
          out := { written := [0x40, 0x02, 0, 5], cap := Option.none } },
       0, [([97, 47, 98, 0], 2)]) :=
  mqtt_C9_inbound_publish_qos1 onPubZero
    { mqtt_client_init [0, 3, 97, 47, 98, 0, 5, 104, 105] with
        state := ClientState.connected }
    9 2 [97, 47, 98] 0 5 [104, 105] (by decide) (by decide) rfl (by decide) rfl

/-- Claim C5 (amended): for every publish request with a topic of size at
most 255 (and QoS at most 2), the client writes a publish packet whose
fixed-header flags are `qos << 1` with retain and duplicate bits zero,
whose remaining length is `topic.size + 2 + (2 if QoS ≥ 1 else 0) +
payload.size`, and whose topic is prefixed by the two-byte big-endian
topic size, followed for positive QoS by the packet identifier `0x0001`
and then the raw payload. (The original bound 65535 fails — the handler
writes the topic-length prefix as a literal 0 and the size truncated to
one byte, which coincides with big-endian only up to 255; see the
counterexample.) -/
theorem mqtt_C5_amended_publish (c : Client) (m : AppMessage)
    (hq : m.qos ≤ 2)
    (ht : m.topic.size ≤ 255)
    (htb : m.topic.size ≤ (m.topic.buf_p.getD []).length)
    (hpb : m.payload.size ≤ (m.payload.buf_p.getD []).length)
    (hcap : c.out.cap = Option.none) :
    handle_control_publish c m =
      ({ { c with messageType := ControlType.publish } with
          out := { written := c.out.written ++ claimed_publish_bytes m,
                   cap := Option.none } }, 0) := by
  obtain ⟨st, mt, ⟨w, cap⟩, input⟩ := c
  simp only at hcap
  subst hcap
  have hlentake : ((m.topic.buf_p.getD []).take m.topic.size).length = m.topic.size := by
    simp only [List.length_take]
    omega
  have hplentake : ((m.payload.buf_p.getD []).take m.payload.size).length
      = m.payload.size := by
    simp only [List.length_take]
    omega
  have hmsb : MSB m.topic.size = 0 := MSB_eq_zero _ (by omega)
  have hlsb : LSB m.topic.size = m.topic.size % 256 := LSB_eq_mod _
  have hosz : m.topic.size + m.payload.size + 2 + (if m.qos > 0 then 2 else 0)
      = m.topic.size + 2 + (if m.qos > 0 then 2 else 0) + m.payload.size := by
    omega
  unfold handle_control_publish publish_payload claimed_publish_bytes
  dsimp only
  rw [write_fixed_header_none _ _ _ _ rfl]
  simp only [chan_write_none, List.length_cons, List.length_nil, hlentake, hplentake,
    hosz, hmsb, hlsb, ne_eq, not_true_eq_false, if_false]
  by_cases hq0 : m.qos > 0 <;>
    by_cases hp0 : m.payload.size > 0 <;>
      simp_all [List.append_assoc, List.take_of_length_le]

/-- Witness for C5: the spec's scenario 2 — publish topic `"a/b"`,
payload `"hi"`, QoS 0 — writes `30 07 00 03 a / b h i` and succeeds. -/
theorem mqtt_C5_witness :
    handle_control_publish (mqtt_client_init [])
        { topic := { buf_p := Option.some [97, 47, 98], size := 3 },
          payload := { buf_p := Option.some [104, 105], size := 2 }, qos := 0 } =
      ({ { mqtt_client_init [] with messageType := ControlType.publish } with
          out := { written := (mqtt_client_init []).out.written
                       ++ claimed_publish_bytes
                            { topic := { buf_p := Option.some [97, 47, 98], size := 3 },
                              payload := { buf_p := Option.some [104, 105], size := 2 },
                              qos := 0 },
                   cap := Option.none } }, 0) :=
  mqtt_C5_amended_publish (mqtt_client_init [])
    { topic := { buf_p := Option.some [97, 47, 98], size := 3 },
      payload := { buf_p := Option.some [104, 105], size := 2 }, qos := 0 }
    (by decide) (by decide) (by decide) (by decide) rfl

theorem connect_fin_spec (c : Client) (opts : ConnOptions)
    (hcap : c.out.cap = Option.none)
    (hp : opts.password.size = 0 ∨ ValidMqttString opts.password) :
    connect_fin c opts =
      ({ { c with messageType := ControlType.connect } with
          out := { written := c.out.written
                       ++ (if opts.password.size > 0 then mqtt_string_bytes opts.password
                           else []),
                   cap := Option.none } }, 0) := by
  have hout : ({ written := c.out.written, cap := Option.none } : OutChan) = c.out := by
    rw [← hcap]
  rcases hp with h | h
  · simp [connect_fin, h, hout]
  · have h1 : opts.password.size > 0 := by
      have := h.1
      omega
    simp only [connect_fin, if_pos h1, write_mqtt_string_none c opts.password hcap h]
    simp

theorem connect_tail_spec (c : Client) (opts : ConnOptions)
    (hcap : c.out.cap = Option.none)
    (hu : opts.user_name.size = 0 ∨ ValidMqttString opts.user_name)
    (hp : opts.password.size = 0 ∨ ValidMqttString opts.password) :
    connect_tail c opts =
      ({ { c with messageType := ControlType.connect } with
          out := { written := c.out.written
                       ++ (if opts.user_name.size > 0 then mqtt_string_bytes opts.user_name
                           else [])
                       ++ (if opts.password.size > 0 then mqtt_string_bytes opts.password
                           else []),
                   cap := Option.none } }, 0) := by
  rcases hu with h | h
  · rw [connect_tail, if_neg (by omega)]
    rw [connect_fin_spec c opts hcap hp]
    simp [h]
  · have h1 : opts.user_name.size > 0 := by
      have := h.1
      omega
    rw [connect_tail, if_pos h1, write_mqtt_string_none c opts.user_name hcap h]
    simp only [ne_eq, not_true_eq_false, if_false]
    rw [connect_fin_spec _ opts rfl hp]
    simp [if_pos h1, List.append_assoc]

/-- Claim C2 (amended): for every connect request with well-formed
options, the connect packet's fixed header has type 1 and flags 0, its
remaining length equals 12 (not 10) plus the payload length, and the
variable header consists of twelve bytes: the ten bytes
`00 04 M Q T T 04 <connect-flags> <keep-alive MSB> <keep-alive LSB>` as
claimed, followed by two extra bytes the code appends — the big-endian
payload length, which counts each payload string's 2-byte length header.
The payload strings follow. -/
theorem mqtt_C2_amended_connect (c : Client) (opts : ConnOptions)
    (hv : ValidConnOptions opts) (hcap : c.out.cap = Option.none) :
    handle_control_connect c (Option.some opts) =
      ({ { c with messageType := ControlType.connect } with
          out := { written := c.out.written ++ amended_connect_bytes opts,
                   cap := Option.none } }, 0) := by
  obtain ⟨hcid, hwill, huser, hpass⟩ := hv
  obtain ⟨st, mt, ⟨w, cap⟩, input⟩ := c
  simp only at hcap
  subst hcap
  have hsym : ((opts.will.topic.size == 0) != (opts.will.payload.size == 0)) = false := by
    rcases hwill with ⟨h1, h2⟩ | ⟨h1, h2, -, -⟩
    · simp [h1, h2]
    · have e1 : opts.will.topic.size ≠ 0 := by omega
      have e2 : opts.will.payload.size ≠ 0 := by omega
      simp [e1, e2]
  have hvcid : ValidMqttString (effective_client_id opts) := by
    rcases hcid with h | h
    · rw [effective_client_id, if_pos h]
      exact ⟨by norm_num, by norm_num, by simp, by simp [simba_mqtt_id]⟩
    · have h1 := h.1
      rw [effective_client_id, if_neg (by omega)]
      exact h
  rw [handle_control_connect]
  dsimp only [Option.getD]
  rw [if_neg (by simp [hsym])]
  rw [write_fixed_header_none _ _ _ _ rfl]
  simp only [ne_eq, eq_self_iff_true, not_true_eq_false, if_false, chan_write_none,
    List.length_cons, List.length_nil]
  rw [write_mqtt_string_none _ _ rfl hvcid]
  simp only [ne_eq, eq_self_iff_true, not_true_eq_false, if_false]
  by_cases hwt : opts.will.topic.size > 0
  · have hwv : ValidMqttString opts.will.topic ∧ ValidMqttString opts.will.payload := by
      rcases hwill with ⟨h1, -⟩ | ⟨-, -, h3, h4⟩
      · omega
      · exact ⟨h3, h4⟩
    rw [if_pos hwt, write_mqtt_string_none _ _ rfl hwv.1]
    simp only [ne_eq, eq_self_iff_true, not_true_eq_false, if_false]
    rw [write_mqtt_string_none _ _ rfl hwv.2]
    simp only [ne_eq, eq_self_iff_true, not_true_eq_false, if_false]
    rw [connect_tail_spec _ opts rfl huser hpass]
    simp [amended_connect_bytes, connect_payload_bytes, if_pos hwt, List.append_assoc]
  · rw [if_neg hwt]
    rw [connect_tail_spec _ opts rfl huser hpass]
    simp [amended_connect_bytes, connect_payload_bytes, if_neg hwt, List.append_assoc]

/-- Witness for C2: the amended connect-packet layout at the all-empty
options (client id defaulted, no will, username or password). -/
theorem mqtt_C2_witness :
    handle_control_connect (mqtt_client_init []) (Option.some default_conn_options) =
      ({ { mqtt_client_init [] with messageType := ControlType.connect } with
          out := { written := (mqtt_client_init []).out.written
                       ++ amended_connect_bytes default_conn_options,
                   cap := Option.none } }, 0) :=
  mqtt_C2_amended_connect (mqtt_client_init []) default_conn_options (by decide) rfl

/-- A fixed-header write that reported success appended exactly the
header bytes to the transport. -/
theorem write_fixed_header_success (c : Client) (t f s : Nat)
    (h : (write_fixed_header c t f s).2 = 0) :
    (write_fixed_header c t f s).1.out.written
      = c.out.written ++ fixed_header_bytes t f s := by
  obtain ⟨st, mt, ⟨w, cap⟩, input⟩ := c
  unfold write_fixed_header chan_write at h ⊢
  cases cap with
  | none => simp
  | some k =>
      dsimp only at h ⊢
      split at h
      · simp [ EIO] at h
      · rename_i hcond
        simp only [ne_eq, not_not] at hcond
        rw [if_neg (by simp [hcond])]
        dsimp only
        rw [hcond, List.take_length]

/-- `handle_control_disconnect` either leaves the state alone (the write
failed) or moves to disconnected having written the disconnect packet
`E0 00`. -/
theorem handle_control_disconnect_cases (c : Client) :
    ((handle_control_disconnect c).1).state = c.state ∨
    (((handle_control_disconnect c).1).state = ClientState.disconnected ∧
      ((handle_control_disconnect c).1).out.written = c.out.written ++ [0xE0, 0x00]) := by
  unfold handle_control_disconnect
  dsimp only
  split
  · left
    simp
  · rename_i h
    simp only [ne_eq, not_not] at h
    right
    refine ⟨rfl, ?_⟩
    have := write_fixed_header_success c MQTT_DISCONNECT 0 0 h
    simpa [show fixed_header_bytes MQTT_DISCONNECT 0 0 = [0xE0, 0x00] from by decide]
      using this

/-- Reading two bytes that passed the connack checks yields `[0, 0]`. -/
theorem connack_bytes_pair (l : List Nat) (h2 : chan_read_count l 2 = 2)
    (h0 : (chan_read_bytes l 2).getD 0 0 = 0)
    (h1 : (chan_read_bytes l 2).getD 1 0 = 0) :
    chan_read_bytes l 2 = [0, 0] := by
  match l with
  | [] => simp [chan_read_count] at h2
  | [a] => simp [chan_read_count] at h2
  | a :: b :: rest =>
      simp [chan_read_bytes] at h0 h1 ⊢
      exact ⟨h0, h1⟩

/-- `handle_response_connack` either leaves the state alone or — exactly
when a connect is in flight, the size is 2 and the two bytes read are
zero — returns 0 with the state set to connected. -/
theorem handle_response_connack_cases (c : Client) (size : Nat) :
    ((handle_response_connack c size).1).state = c.state ∨
    (c.messageType = ControlType.connect ∧ size = 2 ∧
      chan_read_count c.input 2 = 2 ∧ chan_read_bytes c.input 2 = [0, 0] ∧
      (handle_response_connack c size).1.state = ClientState.connected ∧
      (handle_response_connack c size).2 = 0) := by
  unfold handle_response_connack
  dsimp only
  split
  · left
    rfl
  · rename_i h1
    simp only [ne_eq, not_not] at h1
    split
    · left
      rfl
    · rename_i h2
      simp only [ne_eq, not_not] at h2
      subst h2
      split
      · left
        rfl
      · split
        · left
          rfl
        · split
          · left
            rfl
          · rename_i h3 h4 h5
            simp only [ne_eq, not_not, CONNECTION_ACCEPTED] at h3 h4 h5
            right
            exact ⟨h1, rfl, by omega, connack_bytes_pair c.input (by omega) h4 h5,
              rfl, rfl⟩

/-- Claim C6: the connection state only ever changes in two ways. A
control dispatch changes it only from connected to disconnected, only for
the disconnect verb, and only with the disconnect packet `E0 00` written;
a server dispatch changes it only from disconnected to connected, only
while a connect is in flight and only by accepting a connack frame with
size 2 and both variable-header bytes (connack flags, return code) zero.
Every other operation leaves the state exactly as it was. -/
theorem mqtt_C6_state_transitions (onPub : List Nat → Nat → Int) (c : Client)
    (msg : CtrlMsg) :
    ((read_control_message c msg).client.state = c.state ∨
      (c.state = ClientState.connected ∧
       (read_control_message c msg).client.state = ClientState.disconnected ∧
       msg = CtrlMsg.disconnect ∧
       (read_control_message c msg).client.out.written = c.out.written ++ [0xE0, 0x00])) ∧
    ((read_server_message onPub c).client.state = c.state ∨
      (c.state = ClientState.disconnected ∧
       (read_server_message onPub c).client.state = ClientState.connected ∧
       c.messageType = ControlType.connect ∧ connack_accepted c = true)) := by
  constructor
  · rcases c with ⟨st, mt, out, input⟩
    cases st with
    | disconnected =>
        cases msg <;> simp [read_control_message]
    | connected =>
        cases msg with
        | disconnect =>
            simp only [read_control_message]
            rcases handle_control_disconnect_cases
                ⟨ClientState.connected, mt, out, input⟩ with h | ⟨h1, h2⟩
            · left
              exact h
            · right
              simp [h1, h2]
        | connect opts? => simp [read_control_message]
        | ping => simp [read_control_message]
        | publish m => simp [read_control_message]
        | subscribe m => simp [read_control_message]
        | unsubscribe m => simp [read_control_message]
        | other b => simp [read_control_message]
  · rcases hfh : read_fixed_header c with ⟨c1, e⟩
    have hc1s : c1.state = c.state := by
      have := read_fixed_header_state c
      rw [hfh] at this
      exact this
    have hc1m : c1.messageType = c.messageType := by
      have := read_fixed_header_messageType c
      rw [hfh] at this
      exact this
    unfold read_server_message
    rw [hfh]
    cases e with
    | error err =>
        left
        exact hc1s
    | ok t3 =>
        obtain ⟨t, fl, sz⟩ := t3
        dsimp only
        by_cases h2 : t = MQTT_CONNACK
        · simp only [if_pos h2]
          rcases handle_response_connack_cases c1 sz with h | ⟨hm, hsz, hcount, hbytes, hst2, hres⟩
          · left
            exact h.trans hc1s
          · cases hcs : c.state with
            | connected =>
                left
                exact hst2
            | disconnected =>
                right
                refine ⟨rfl, hst2, by rw [← hc1m]; exact hm, ?_⟩
                unfold connack_accepted
                rw [hfh]
                simp [h2, hsz, hcount, hbytes]
        · rw [if_neg h2]
          by_cases h4 : t = MQTT_PUBACK
          · simp only [if_pos h4]
            left
            rw [handle_response_puback_state, hc1s]
          · rw [if_neg h4]
            by_cases h567 : t = MQTT_PUBREC ∨ t = MQTT_PUBREL ∨ t = MQTT_PUBCOMP
            · simp only [if_pos h567]
              left
              exact hc1s
            · rw [if_neg h567]
              by_cases h9 : t = MQTT_SUBACK
              · simp only [if_pos h9]
                left
                rw [handle_response_suback_state, hc1s]
              · rw [if_neg h9]
                by_cases h11 : t = MQTT_UNSUBACK
                · simp only [if_pos h11]
                  left
                  rw [handle_response_unsuback_state, hc1s]
                · rw [if_neg h11]
                  by_cases h13 : t = MQTT_PINGRESP
                  · simp only [if_pos h13]
                    left
                    rw [handle_response_ping_state, hc1s]
                  · rw [if_neg h13]
                    by_cases h3 : t = MQTT_PUBLISH
                    · simp only [if_pos h3]
                      left
                      rw [handle_publish_state, hc1s]
                    · rw [if_neg h3]
                      left
                      exact hc1s

/-- Counterexample to C1 as stated: a connect request with an asymmetric
will makes `handle_control_connect` return `-EINVAL`, but the dispatcher
`read_control_message` returns 0 to the event loop — so the on-error
callback is never invoked — and posts nothing on the outbound control
channel, leaving the blocked connect caller without the value. -/
theorem mqtt_C1_counterexample :
    (handle_control_connect (mqtt_client_init [])
        (Option.some asym_will_options)).2 = -EINVAL ∧
    -EINVAL ≠ (0 : Int) ∧
    ¬ ((read_control_message (mqtt_client_init [])
          (CtrlMsg.connect (Option.some asym_will_options))).ret = -EINVAL ∧
       -EINVAL ∈ (read_control_message (mqtt_client_init [])
          (CtrlMsg.connect (Option.some asym_will_options))).posted) := by decide

/-- Claim C1 (amended): only response-handler results are propagated.
`read_control_message` returns 0 to the event loop on every path, so a
request handler's non-zero result never reaches the on-error callback;
it posts a result code only for the disconnect verb (the disconnect
handler's result, whatever it is), and otherwise discards the handler's
result. `read_server_message` posts exactly its own return value — which
the loop passes to on-error when non-zero — whenever the frame is one of
the five acknowledgements (connack, puback, suback, unsuback, pingresp),
and posts nothing otherwise, so the blocked caller receives the response
handler's value verbatim. -/
theorem mqtt_C1_amended_error_propagation (onPub : List Nat → Nat → Int)
    (c : Client) (msg : CtrlMsg) :
    (read_control_message c msg).ret = 0 ∧
    ((read_control_message c msg).posted =
      if c.state = ClientState.connected ∧ msg = CtrlMsg.disconnect
      then [(handle_control_disconnect c).2] else []) ∧
    ((read_server_message onPub c).posted = [] ∨
      (read_server_message onPub c).posted = [(read_server_message onPub c).res]) ∧
    (is_ack_frame c = true →
      (read_server_message onPub c).posted = [(read_server_message onPub c).res]) := by
  refine ⟨?_, ?_, ?_⟩
  · rcases c with ⟨st, mt, out, input⟩
    cases st <;> cases msg <;> simp [read_control_message]
  · rcases hc : c with ⟨st, mt, out, input⟩
    cases st <;> cases msg <;> simp [read_control_message]
  · rcases hfh : read_fixed_header c with ⟨c1, e⟩
    unfold read_server_message
    rw [hfh]
    cases e with
    | error err =>
        refine ⟨Or.inl (by trivial), fun hbad => ?_⟩
        unfold is_ack_frame at hbad
        rw [hfh] at hbad
        simp at hbad
    | ok t3 =>
        obtain ⟨t, fl, sz⟩ := t3
        dsimp only
        have hack : is_ack_frame c =
            (t == MQTT_CONNACK || t == MQTT_PUBACK || t == MQTT_SUBACK
              || t == MQTT_UNSUBACK || t == MQTT_PINGRESP) := by
          unfold is_ack_frame
          rw [hfh]
        by_cases h2 : t = MQTT_CONNACK
        · simp only [if_pos h2]
          exact ⟨Or.inr (by trivial), fun _ => by trivial⟩
        · rw [if_neg h2]
          by_cases h4 : t = MQTT_PUBACK
          · simp only [if_pos h4]
            exact ⟨Or.inr (by trivial), fun _ => by trivial⟩
          · rw [if_neg h4]
            by_cases h567 : t = MQTT_PUBREC ∨ t = MQTT_PUBREL ∨ t = MQTT_PUBCOMP
            · simp only [if_pos h567]
              refine ⟨Or.inl (by trivial), fun hbad => ?_⟩
              rw [hack] at hbad
              rcases h567 with h | h | h <;> subst h <;> simp_all [MQTT_PUBREC,
                MQTT_PUBREL, MQTT_PUBCOMP, MQTT_CONNACK, MQTT_PUBACK, MQTT_SUBACK,
                MQTT_UNSUBACK, MQTT_PINGRESP]
            · rw [if_neg h567]
              by_cases h9 : t = MQTT_SUBACK
              · simp only [if_pos h9]
                exact ⟨Or.inr (by trivial), fun _ => by trivial⟩
              · rw [if_neg h9]
                by_cases h11 : t = MQTT_UNSUBACK
                · simp only [if_pos h11]
                  exact ⟨Or.inr (by trivial), fun _ => by trivial⟩
                · rw [if_neg h11]
                  by_cases h13 : t = MQTT_PINGRESP
                  · simp only [if_pos h13]
                    exact ⟨Or.inr (by trivial), fun _ => by trivial⟩
                  · rw [if_neg h13]
                    by_cases h3 : t = MQTT_PUBLISH
                    · simp only [if_pos h3]
                      refine ⟨Or.inl (by trivial), fun hbad => ?_⟩
                      rw [hack] at hbad
                      simp [h2, h4, h9, h11, h13] at hbad
                    · rw [if_neg h3]
                      refine ⟨Or.inl (by trivial), fun hbad => ?_⟩
                      rw [hack] at hbad
                      simp [h2, h4, h9, h11, h13] at hbad

/-- Witness for C1 (amended): with a puback in flight and the frame
`40 02 00 01` on the input (an ack frame), the dispatcher posts exactly
its result — here 0 — for the blocked publish caller; and a control
dispatch of a ping request returns 0 to the loop. -/
theorem mqtt_C1_witness :
    (read_server_message onPubZero
        { { mqtt_client_init [0x40, 0x02, 0x00, 0x01] with
            state := ClientState.connected } with
            messageType := ControlType.publish }).posted =
      [(read_server_message onPubZero
        { { mqtt_client_init [0x40, 0x02, 0x00, 0x01] with
            state := ClientState.connected } with
            messageType := ControlType.publish }).res] ∧
    (read_control_message { mqtt_client_init [] with state := ClientState.connected }
        CtrlMsg.ping).ret = 0 :=
  ⟨(mqtt_C1_amended_error_propagation onPubZero
      { { mqtt_client_init [0x40, 0x02, 0x00, 0x01] with
          state := ClientState.connected } with
          messageType := ControlType.publish } CtrlMsg.ping).2.2.2 (by decide),
   (mqtt_C1_amended_error_propagation onPubZero
      { mqtt_client_init [] with state := ClientState.connected } CtrlMsg.ping).1⟩

set_option maxRecDepth 8000 in
/-- Counterexample to C5 as stated: for a publish whose topic is 256
bytes long (at most 65535, as the claim allows) the written packet does
not carry the two-byte big-endian topic length — the code emits a literal
0 and the low byte `256 % 256 = 0` instead of `01 00`. -/
theorem mqtt_C5_counterexample :
    (handle_control_publish (mqtt_client_init []) oversize_topic_message).1.out.written ≠
      claimed_publish_bytes oversize_topic_message := by decide

end MqttClient
